import Mathlib

/-!
Verification development for `TribalLandChecker` (src/tribal_land_checker.py).

The Python source is shallowly embedded below:

* Python floats (coordinates) are modelled as rationals `ℚ`; none of the
  verified properties depend on floating-point rounding.
* The geocoding cache (`self.geocoding_cache`, a Python `dict`) is an
  association list with most-recent-insertion-first lookup, which matches
  `dict` lookup/overwrite semantics.
* The two HTTP providers are parameters of the model (a `World`): each maps
  an address string either to a transport/parsing error (anything that would
  raise inside the `try` block) or to a list of parsed matches.
* Observable effects (provider network calls, `time.sleep(1)`) are recorded
  in an explicit event trace returned alongside the result.
* Shapely's `Polygon.contains(point)` (strict interior membership: boundary
  points are excluded) is modelled for simple polygons by an even-odd
  crossing test together with an explicit on-boundary test.
-/

namespace TribalLandChecker

/-- A coordinate pair `(latitude, longitude)`, as produced by
`geocode_address` (Python `Tuple[float, float]`, floats modelled as `ℚ`). -/
abbrev Coord : Type := ℚ × ℚ

/-- The geocoding cache `self.geocoding_cache`: maps an address string to the
stored value — `some c` for a successfully geocoded coordinate, `none` for
the explicit "could not geocode" sentinel (Python `None`).  A key that is
absent from the list is "not yet attempted". -/
abbrev Cache : Type := List (String × Option Coord)

/-- Python `address in self.geocoding_cache` / `self.geocoding_cache[address]`
combined: `dict` lookup. -/
def Cache.find (c : Cache) (k : String) : Option (Option Coord) :=
  List.lookup k c

/-- Python `self.geocoding_cache[address] = v`: `dict` store (overwrite). -/
def Cache.insert (c : Cache) (k : String) (v : Option Coord) : Cache :=
  (k, v) :: c

/-- Model of Python's `str.strip()` (source line 113): removes leading and
trailing whitespace characters. -/
def pyStrip (s : String) : String :=
  ⟨((s.data.dropWhile Char.isWhitespace).reverse.dropWhile Char.isWhitespace).reverse⟩

/-- Result of one provider HTTP round trip: `Except.error ()` models any
exception raised by `requests.get`, `raise_for_status`, `.json()` or the
field parsing; `Except.ok ms` models a successful response whose parsed
match list is `ms` (empty list = zero matches). -/
abbrev ProviderResult : Type := Except Unit (List Coord)

/-- The external world `geocode_address` talks to: provider 1 is Nominatim
(`nominatim.openstreetmap.org/search`), provider 2 is the Census geocoder
(`geocoding.geo.census.gov/.../onelineaddress`). -/
structure World where
  p1 : String → ProviderResult
  p2 : String → ProviderResult

/-- Observable events of one `geocode_address` call, in order. -/
inductive GeoEvent : Type
  | callP1   -- an actual HTTP request to provider 1 (Nominatim)
  | sleep    -- `time.sleep(1)` (the Nominatim rate-limit delay)
  | callP2   -- an actual HTTP request to provider 2 (Census)
deriving DecidableEq, Repr

/-- Shallow embedding of `TribalLandChecker.geocode_address` (lines 94-169).
Returns the Python return value, the cache after the call, and the trace of
observable events.  Control flow mirrors the source:
1. cache lookup with the *raw* address string (line 105);
2. on a miss, enter the `try` block: trim the address (line 113), call
   provider 1; a nonempty result list stores and returns the first match
   after `time.sleep(1)` (lines 131-140);
3. on an empty provider-1 result, call provider 2; a nonempty
   `addressMatches` list stores and returns its first match (lines 142-160);
4. if both providers yield no match, store the `None` sentinel under the
   trimmed address and return `None` (lines 162-164);
5. any exception raised inside the `try` block is caught, stores the `None`
   sentinel and returns `None` (lines 166-169). -/
def geocode_address (w : World) (cache : Cache) (address : String) :
    Option Coord × Cache × List GeoEvent :=
  match cache.find address with
  | some r => (r, cache, [])
  | none =>
    let addr := pyStrip address
    match w.p1 addr with
    | .error _ => (none, cache.insert addr none, [.callP1])
    | .ok data =>
      match data with
      | result :: _ =>
        (some result, cache.insert addr (some result), [.callP1, .sleep])
      | [] =>
        match w.p2 addr with
        | .error _ => (none, cache.insert addr none, [.callP1, .callP2])
        | .ok data2 =>
          match data2 with
          | m :: _ =>
            (some m, cache.insert addr (some m), [.callP1, .callP2])
          | [] => (none, cache.insert addr none, [.callP1, .callP2])

/-! ### Geometry: shapely `Point` and `Polygon.contains` -/

/-- A planar point as shapely builds it: `Point(x, y)` with `x` = longitude,
`y` = latitude (source line 187 constructs `Point(lon, lat)`). -/
structure Point where
  x : ℚ
  y : ℚ
deriving DecidableEq, Repr

/-- A simple polygon, given by its exterior ring's vertices (closed
implicitly: the last vertex connects back to the first). -/
structure Polygon where
  vertices : List Point
deriving DecidableEq, Repr

/-- The edges of a polygon as consecutive vertex pairs, wrapping around. -/
def Polygon.edges (poly : Polygon) : List (Point × Point) :=
  match poly.vertices with
  | [] => []
  | v :: vs => List.zip (v :: vs) (vs ++ [v])

/-- `p` lies on the closed segment from `a` to `b`: the cross product of
`b - a` and `p - a` vanishes and `p` is within the segment's bounding box. -/
def onSegment (a b p : Point) : Bool :=
  (b.x - a.x) * (p.y - a.y) - (b.y - a.y) * (p.x - a.x) = 0
    && min a.x b.x ≤ p.x && p.x ≤ max a.x b.x
    && min a.y b.y ≤ p.y && p.y ≤ max a.y b.y

/-- `p` lies exactly on the polygon's boundary line (on some edge). -/
def Polygon.onBoundary (poly : Polygon) (p : Point) : Bool :=
  poly.edges.any fun e => onSegment e.1 e.2 p

/-- One step of the even-odd ray-crossing test: the edge `(a, b)` crosses the
horizontal ray extending from `p` towards `x = -∞`. -/
def edgeCrosses (a b p : Point) : Bool :=
  (decide (a.y > p.y) != decide (b.y > p.y))
    && decide (p.x < (b.x - a.x) * (p.y - a.y) / (b.y - a.y) + a.x)

/-- Even-odd (crossing-number) test: an odd number of edges cross the ray.
For a point not on the boundary of a simple polygon this decides interior
membership. -/
def Polygon.evenOddInside (poly : Polygon) (p : Point) : Bool :=
  (poly.edges.filter fun e => edgeCrosses e.1 e.2 p).length % 2 = 1

/-- Model of shapely's `geometry.contains(point)` (source line 191) for a
simple polygon: strict interior membership — shapely's `contains` holds iff
the point lies in the polygon's interior, so points exactly on the boundary
line are *not* contained. -/
def Polygon.contains (poly : Polygon) (p : Point) : Bool :=
  !poly.onBoundary p && poly.evenOddInside p

/-- One row of the boundary GeoDataFrame: an identifier (`GEOID`, possibly
null in the raw download), a name, and the geometry. -/
structure Boundary where
  geoid : Option String
  name : String
  geometry : Polygon
deriving DecidableEq, Repr

/-! ### `check_tribal_land` -/

/-- Shallow embedding of `TribalLandChecker.check_tribal_land`
(lines 171-195) for a loaded boundary set: builds `Point(lon, lat)`
(line 187, note the axis inversion relative to the `(lat, lon)` argument
order) and iterates the boundaries, returning `true` on the first one whose
`geometry.contains` includes the point, `false` after exhausting all of
them.  (The lazy-download branch of lines 182-184 is modelled separately by
`ensure_boundaries` below.) -/
def check_tribal_land (boundaries : List Boundary) (lat lon : ℚ) : Bool :=
  boundaries.any fun boundary => boundary.geometry.contains ⟨lon, lat⟩

/-! ### Boundary loading (`load_tribal_boundaries`, `download_tribal_boundaries`) -/

/-- A geopandas `GeoDataFrame` as the checker uses it: a coordinate
reference system tag and the boundary rows. -/
structure GeoDataFrame where
  crs : String
  rows : List Boundary
deriving DecidableEq, Repr

/-- The external geospatial world: `gpd.read_file` on a path or URL, and the
reprojection `to_crs` performs on each geometry (abstract — its details do
not matter to the claims). -/
structure GeoWorld where
  read_file : String → GeoDataFrame
  reproject : String → String → Polygon → Polygon

/-- Model of geopandas `gdf.to_crs(target)`: reprojects every geometry from
the frame's CRS into `target` and tags the frame with `target`. -/
def GeoDataFrame.to_crs (gw : GeoWorld) (gdf : GeoDataFrame) (target : String) :
    GeoDataFrame :=
  { crs := target
    rows := gdf.rows.map fun b =>
      { b with geometry := gw.reproject gdf.crs target b.geometry } }

/-- The Census TIGER URL `download_tribal_boundaries` fetches (line 57). -/
def tigerURL : String :=
  "https://www2.census.gov/geo/tiger/TIGER2023/AIANNH/tl_2023_us_aiannh.zip"

/-- Shallow embedding of `TribalLandChecker.download_tribal_boundaries`
(lines 45-74): reads the TIGER archive and filters rows to those with a
non-null `GEOID` (`gdf[gdf['GEOID'].notna()]`, line 64).  No CRS check or
reprojection is performed on this path. -/
def download_tribal_boundaries (gw : GeoWorld) : GeoDataFrame :=
  let gdf := gw.read_file tigerURL
  { gdf with rows := gdf.rows.filter fun b => b.geoid.isSome }

/-- Shallow embedding of `TribalLandChecker.load_tribal_boundaries`
(lines 76-92): reads the local file and reprojects to `EPSG:4326` whenever
the source CRS differs (lines 87-88). -/
def load_tribal_boundaries (gw : GeoWorld) (path : String) : GeoDataFrame :=
  let gdf := gw.read_file path
  if gdf.crs ≠ "EPSG:4326" then gdf.to_crs gw "EPSG:4326" else gdf

/-- The lazy-load branch at the top of `check_tribal_land` (lines 182-184):
if `self.tribal_boundaries` is `None`, it is set to the result of
`download_tribal_boundaries`; otherwise the loaded frame is kept. -/
def ensure_boundaries (gw : GeoWorld) (loaded : Option GeoDataFrame) :
    GeoDataFrame :=
  match loaded with
  | none => download_tribal_boundaries gw
  | some gdf => gdf

/-! ### `process_excel` (the per-row batch loop, lines 244-286) -/

/-- The three output cells `process_excel` appends to a row, initialised to
`None` (lines 240-242) and filled by the loop. -/
structure RowOut where
  latitude : Option ℚ
  longitude : Option ℚ
  on_tribal_land : Option String
deriving DecidableEq, Repr

/-- One iteration of the `for idx, row in df.iterrows()` loop
(lines 246-271).  The address cell is an `Option String`: `none` models a
missing value (pandas `NaN`/`None`, for which `pd.isna` is true); `some s`
models a string cell — `pd.isna` is false for every string, including `""`.
Returns the filled output cells, the cache after the iteration, and the
number of `geocode_address` invocations made for this row. -/
def process_row (w : World) (boundaries : List Boundary) (cache : Cache)
    (addressCell : Option String) : RowOut × Cache × Nat :=
  match addressCell with
  | none =>
    -- `pd.isna(address)` is true: label 'No Data', `continue` (lines 249-252)
    ({ latitude := none, longitude := none, on_tribal_land := some "No Data" },
     cache, 0)
  | some address =>
    let g := geocode_address w cache address
    match g.1 with
    | some (lat, lon) =>
      let on_tribal := check_tribal_land boundaries lat lon
      ({ latitude := some lat, longitude := some lon,
         on_tribal_land := some (if on_tribal then "Yes" else "No") },
       g.2.1, 1)
    | none =>
      ({ latitude := none, longitude := none,
         on_tribal_land := some "Could Not Geocode" }, g.2.1, 1)

/-- The whole per-row loop of `process_excel` over a batch of address cells,
threading the geocoding cache: returns the output rows in order, the final
cache, and the total number of `geocode_address` invocations. -/
def process_excel (w : World) (boundaries : List Boundary) :
    List (Option String) → Cache → List RowOut × Cache × Nat
  | [], cache => ([], cache, 0)
  | cell :: rest, cache =>
    let (out, cache1, n) := process_row w boundaries cache cell
    let (outs, cache2, m) := process_excel w boundaries rest cache1
    (out :: outs, cache2, n + m)

/-! ## Concrete fixtures used by witnesses and counterexamples -/

/-- A concrete test polygon: the axis-aligned square with corners `(0,0)`
and `(4,4)` (in longitude/latitude space). -/
def sqPoly : Polygon := ⟨[⟨0, 0⟩, ⟨4, 0⟩, ⟨4, 4⟩, ⟨0, 4⟩]⟩

/-- A boundary row wrapping `sqPoly`. -/
def sqBoundary : Boundary := ⟨some "0001", "Test Area", sqPoly⟩

/-- A second test polygon, disjoint from `sqPoly`. -/
def farPoly : Polygon := ⟨[⟨10, 10⟩, ⟨14, 10⟩, ⟨14, 14⟩, ⟨10, 14⟩]⟩

/-- A boundary row wrapping `farPoly`. -/
def farBoundary : Boundary := ⟨some "0002", "Far Area", farPoly⟩

/-- A world whose provider 1 has a match (used as witness input). -/
def wP1Match : World := ⟨fun _ => .ok [(1, 2)], fun _ => .ok []⟩

/-- A world whose provider 1 returns zero matches and whose provider 2 has a
match (the fallback scenario). -/
def wP1Empty : World := ⟨fun _ => .ok [], fun _ => .ok [(3, 4)]⟩

/-- A world whose providers both raise transport errors. -/
def wErr : World := ⟨fun _ => .error (), fun _ => .error ()⟩

/-- Both providers fail for `addr`: provider 1 errors, or provider 1 has
zero matches and provider 2 errors or has zero matches. -/
def providersFail (w : World) (addr : String) : Prop :=
  w.p1 addr = .error () ∨
    (w.p1 addr = .ok [] ∧ (w.p2 addr = .error () ∨ w.p2 addr = .ok []))

/-! ## Cache helper lemmas -/

theorem Cache.find_insert_self (c : Cache) (k : String) (v : Option Coord) :
    (c.insert k v).find k = some v := by
  simp [Cache.find, Cache.insert, List.lookup]

theorem Cache.find_insert_ne (c : Cache) (k k' : String) (v : Option Coord)
    (h : k' ≠ k) : (c.insert k v).find k' = c.find k' := by
  have hb : (k' == k) = false := beq_eq_false_iff_ne.mpr h
  simp [Cache.find, Cache.insert, List.lookup, hb]

/-! Branch equations for `geocode_address`, one per control-flow path of the
source function. -/

theorem geocode_eq_hit (w : World) (cache : Cache) (address : String)
    (r : Option Coord) (hc : cache.find address = some r) :
    geocode_address w cache address = (r, cache, []) := by
  simp [geocode_address, hc]

theorem geocode_eq_p1_err (w : World) (cache : Cache) (address : String) (u : Unit)
    (hmiss : cache.find address = none)
    (hp1 : w.p1 (pyStrip address) = .error u) :
    geocode_address w cache address =
      (none, cache.insert (pyStrip address) none, [.callP1]) := by
  simp [geocode_address, hmiss, hp1]

theorem geocode_eq_p1_ok (w : World) (cache : Cache) (address : String)
    (c : Coord) (cs : List Coord) (hmiss : cache.find address = none)
    (hp1 : w.p1 (pyStrip address) = .ok (c :: cs)) :
    geocode_address w cache address =
      (some c, cache.insert (pyStrip address) (some c), [.callP1, .sleep]) := by
  simp [geocode_address, hmiss, hp1]

theorem geocode_eq_p2_err (w : World) (cache : Cache) (address : String) (u : Unit)
    (hmiss : cache.find address = none)
    (hp1 : w.p1 (pyStrip address) = .ok [])
    (hp2 : w.p2 (pyStrip address) = .error u) :
    geocode_address w cache address =
      (none, cache.insert (pyStrip address) none, [.callP1, .callP2]) := by
  simp [geocode_address, hmiss, hp1, hp2]

theorem geocode_eq_p2_ok (w : World) (cache : Cache) (address : String)
    (m : Coord) (ms : List Coord) (hmiss : cache.find address = none)
    (hp1 : w.p1 (pyStrip address) = .ok [])
    (hp2 : w.p2 (pyStrip address) = .ok (m :: ms)) :
    geocode_address w cache address =
      (some m, cache.insert (pyStrip address) (some m), [.callP1, .callP2]) := by
  simp [geocode_address, hmiss, hp1, hp2]

theorem geocode_eq_p2_empty (w : World) (cache : Cache) (address : String)
    (hmiss : cache.find address = none)
    (hp1 : w.p1 (pyStrip address) = .ok [])
    (hp2 : w.p2 (pyStrip address) = .ok []) :
    geocode_address w cache address =
      (none, cache.insert (pyStrip address) none, [.callP1, .callP2]) := by
  simp [geocode_address, hmiss, hp1, hp2]

/-- On a cache miss, `geocode_address` stores exactly one entry, keyed by
the trimmed address, whose value is the call's return value. -/
theorem geocode_miss_insert (w : World) (cache : Cache) (address : String)
    (hmiss : cache.find address = none) :
    (geocode_address w cache address).2.1 =
      cache.insert (pyStrip address) ((geocode_address w cache address).1) := by
  rcases hp1 : w.p1 (pyStrip address) with u | (_ | ⟨c, cs⟩)
  · rw [geocode_eq_p1_err w cache address u hmiss hp1]
  · rcases hp2 : w.p2 (pyStrip address) with u | (_ | ⟨m, ms⟩)
    · rw [geocode_eq_p2_err w cache address u hmiss hp1 hp2]
    · rw [geocode_eq_p2_empty w cache address hmiss hp1 hp2]
    · rw [geocode_eq_p2_ok w cache address m ms hmiss hp1 hp2]
  · rw [geocode_eq_p1_ok w cache address c cs hmiss hp1]

/-! ## Claim theorems -/

/-- Claim C1: `check_tribal_land` returns `true` iff at least one boundary
polygon's containment test includes the point built as `(longitude,
latitude)`; it is computed as a first-match scan over the boundaries
(cons unfolding), its boolean result is invariant under permutation of the
boundary list, and the empty boundary list yields `false` for every
coordinate. -/
theorem check_tribal_land_spec (lat lon : ℚ) (boundaries : List Boundary) :
    (check_tribal_land boundaries lat lon = true ↔
      ∃ b ∈ boundaries, b.geometry.contains ⟨lon, lat⟩ = true) ∧
    (∀ b bs, check_tribal_land (b :: bs) lat lon =
      (b.geometry.contains ⟨lon, lat⟩ || check_tribal_land bs lat lon)) ∧
    (∀ boundaries', boundaries.Perm boundaries' →
      check_tribal_land boundaries lat lon = check_tribal_land boundaries' lat lon) ∧
    check_tribal_land [] lat lon = false := by
  refine ⟨by simp [check_tribal_land], fun b bs => by simp [check_tribal_land], ?_, rfl⟩
  intro boundaries' hperm
  induction hperm with
  | nil => rfl
  | cons x _ ih => simp only [check_tribal_land, List.any_cons] at ih ⊢; rw [ih]
  | swap x y l => simp only [check_tribal_land, List.any_cons, ← Bool.or_assoc, Bool.or_comm]
  | trans _ _ ih1 ih2 => exact ih1.trans ih2

/-- Witness for `check_tribal_land_spec`: the permutation-invariance and
empty-set conjuncts applied at concrete boundaries and coordinate. -/
theorem check_tribal_land_spec_witness :
    check_tribal_land [sqBoundary, farBoundary] 2 2 =
      check_tribal_land [farBoundary, sqBoundary] 2 2 ∧
    check_tribal_land [] 2 2 = false :=
  ⟨(check_tribal_land_spec 2 2 [sqBoundary, farBoundary]).2.2.1
      [farBoundary, sqBoundary] (List.Perm.swap farBoundary sqBoundary []),
   (check_tribal_land_spec 2 2 []).2.2.2⟩

/-- Claim C7, counterexample: The point `(lon, lat) = (2, 0)` lies exactly on
the bottom edge of `sqPoly`, yet `check_tribal_land` returns `false` for it
with `sqBoundary` in the store: shapely's `contains` excludes
boundary-line points, so the claim "boundary-line points are treated as
belonging to the polygon" fails. -/
theorem boundary_point_counterexample :
    sqPoly.onBoundary ⟨2, 0⟩ = true ∧
    sqPoly.contains ⟨2, 0⟩ = false ∧
    check_tribal_land [sqBoundary] 0 2 = false := by
  norm_num [check_tribal_land, sqBoundary, sqPoly, Polygon.contains, Polygon.onBoundary,
    Polygon.evenOddInside, Polygon.edges, onSegment, edgeCrosses, List.filter,
    List.zip, List.zipWith]

/-- Claim C7, amended: Boundary-line points are *excluded* by the underlying
containment predicate: for every point lying exactly on the boundary line of
every polygon it meets, each polygon's containment test returns `false`, and
hence `check_tribal_land` returns `false` when the point lies on the
boundary line of every polygon in the store. -/
theorem check_tribal_land_boundary_excluded (boundaries : List Boundary) (lat lon : ℚ)
    (h : ∀ b ∈ boundaries, b.geometry.onBoundary ⟨lon, lat⟩ = true) :
    (∀ b ∈ boundaries, b.geometry.contains ⟨lon, lat⟩ = false) ∧
    check_tribal_land boundaries lat lon = false := by
  have hc : ∀ b ∈ boundaries, b.geometry.contains ⟨lon, lat⟩ = false := by
    intro b hb
    simp [Polygon.contains, h b hb]
  refine ⟨hc, ?_⟩
  simp only [check_tribal_land, List.any_eq_false]
  intro b hb
  simp [hc b hb]

/-- Witness for `check_tribal_land_boundary_excluded`: the boundary point
`(lon, lat) = (2, 0)` of `sqPoly`, with `[sqBoundary]` as the store. -/
theorem check_tribal_land_boundary_excluded_witness :
    (∀ b ∈ [sqBoundary], b.geometry.contains ⟨2, 0⟩ = false) ∧
    check_tribal_land [sqBoundary] 0 2 = false :=
  check_tribal_land_boundary_excluded [sqBoundary] 0 2 (by
    intro b hb
    simp only [List.mem_singleton] at hb
    subst hb
    norm_num [sqBoundary, sqPoly, Polygon.onBoundary, Polygon.edges, onSegment,
      List.zip, List.zipWith])

/-- Claim C2: On a cache miss, provider 1 (Nominatim) is attempted before
anything else (the event trace starts with `callP1`); provider 2 (Census) is
attempted exactly when provider 1 returns an empty result set (`ok []`, not
a transport error); and when provider 1 is empty and provider 2 returns a
match, that first match is returned and stored in the cache under the
trimmed address. -/
theorem geocode_provider_order (w : World) (cache : Cache) (address : String)
    (hmiss : cache.find address = none) :
    (∃ rest, (geocode_address w cache address).2.2 = GeoEvent.callP1 :: rest) ∧
    (GeoEvent.callP2 ∈ (geocode_address w cache address).2.2 ↔
      w.p1 (pyStrip address) = .ok []) ∧
    (∀ c cs, w.p1 (pyStrip address) = .ok [] → w.p2 (pyStrip address) = .ok (c :: cs) →
      (geocode_address w cache address).1 = some c ∧
      ((geocode_address w cache address).2.1).find (pyStrip address) = some (some c)) := by
  rcases hp1 : w.p1 (pyStrip address) with u | (_ | ⟨c0, cs0⟩)
  · rw [geocode_eq_p1_err w cache address u hmiss hp1]
    refine ⟨⟨[], rfl⟩, by simp [hp1], ?_⟩
    intro c cs h1 h2
    exact absurd h1 (by simp)
  · rcases hp2 : w.p2 (pyStrip address) with u | (_ | ⟨m, ms⟩)
    · rw [geocode_eq_p2_err w cache address u hmiss hp1 hp2]
      refine ⟨⟨[GeoEvent.callP2], rfl⟩, by simp [hp1], ?_⟩
      intro c cs h1 h2
      exact absurd h2 (by simp)
    · rw [geocode_eq_p2_empty w cache address hmiss hp1 hp2]
      refine ⟨⟨[GeoEvent.callP2], rfl⟩, by simp [hp1], ?_⟩
      intro c cs h1 h2
      exact absurd h2 (by simp)
    · rw [geocode_eq_p2_ok w cache address m ms hmiss hp1 hp2]
      refine ⟨⟨[GeoEvent.callP2], rfl⟩, by simp [hp1], ?_⟩
      intro c cs h1 h2
      simp only [Except.ok.injEq, List.cons.injEq] at h2
      exact ⟨by simp [h2.1], by rw [Cache.find_insert_self, h2.1]⟩
  · rw [geocode_eq_p1_ok w cache address c0 cs0 hmiss hp1]
    refine ⟨⟨[GeoEvent.sleep], rfl⟩, by simp [hp1], ?_⟩
    intro c cs h1 h2
    exact absurd h1 (by simp)

/-- Witness for `geocode_provider_order`: in a world where provider 1 is
empty and provider 2 matches `(3, 4)`, a cache-miss call attempts provider 2
and returns provider 2's first match. -/
theorem geocode_provider_order_witness :
    GeoEvent.callP2 ∈ (geocode_address wP1Empty [] "a").2.2 ∧
    (geocode_address wP1Empty [] "a").1 = some (3, 4) := by
  have h := geocode_provider_order wP1Empty [] "a" rfl
  exact ⟨h.2.1.mpr rfl, (h.2.2 (3, 4) [] rfl rfl).1⟩

/-- Claim C3, counterexample: The cache lookup happens on the *raw* address,
before trimming, so the claim "trims leading/trailing whitespace before any
cache lookup, hence resolving the same address string twice issues at most
one external provider call" fails: resolving the padded address `" a "`
twice in a row issues a provider-1 network call both times (the second call
is not answered from the cache — its trace is not empty). -/
theorem geocode_trim_before_lookup_counterexample :
    (geocode_address wP1Match [] " a ").2.2 = [GeoEvent.callP1, GeoEvent.sleep] ∧
    (geocode_address wP1Match ((geocode_address wP1Match [] " a ").2.1) " a ").2.2 =
      [GeoEvent.callP1, GeoEvent.sleep] := by
  constructor <;> rfl

/-- Claim C3, amended: The cache lookup uses the raw address string and
trimming happens only after a miss; for every address string that equals
its trimmed form, resolving it twice in one run issues at most one external
provider call and both calls return identical results, the second being
answered from the cache with no network access (empty event trace). -/
theorem geocode_cache_idempotent (w : World) (cache : Cache) (address : String)
    (h : pyStrip address = address) :
    (geocode_address w ((geocode_address w cache address).2.1) address).1 =
      (geocode_address w cache address).1 ∧
    (geocode_address w ((geocode_address w cache address).2.1) address).2.2 = [] := by
  rcases hc : cache.find address with _ | r
  · have hfind : ((geocode_address w cache address).2.1).find address =
        some ((geocode_address w cache address).1) := by
      rw [geocode_miss_insert w cache address hc, h, Cache.find_insert_self]
    simp [geocode_eq_hit w _ address _ hfind]
  · simp [geocode_eq_hit w cache address r hc]

/-- Witness for `geocode_cache_idempotent`: the already-trimmed address
`"a"` resolved twice from an empty cache. -/
theorem geocode_cache_idempotent_witness :
    (geocode_address wP1Match ((geocode_address wP1Match [] "a").2.1) "a").1 =
      (geocode_address wP1Match [] "a").1 ∧
    (geocode_address wP1Match ((geocode_address wP1Match [] "a").2.1) "a").2.2 = [] :=
  geocode_cache_idempotent wP1Match [] "a" rfl

/-- Claim C4, counterexample: After a failed resolve of the padded address
`" b "` the sentinel is stored under the trimmed key `"b"`, so a subsequent
resolve of the very same string `" b "` misses the cache and calls
provider 1 again: the "zero provider calls on a subsequent resolve of the
same address" part of the claim fails. -/
theorem geocode_failure_retry_counterexample :
    (geocode_address wErr [] " b ").1 = none ∧
    (geocode_address wErr ((geocode_address wErr [] " b ").2.1) " b ").2.2 =
      [GeoEvent.callP1] := by
  constructor <;> rfl

/-- Claim C4, amended: When both providers yield no match or either raises a
transport/parsing error, `geocode_address` returns `none` (the embedding is
total: no exception escapes) and stores the explicit `none` sentinel under
the *trimmed* address; for an address equal to its trimmed form, a
subsequent resolve returns `none` with zero provider calls (empty trace). -/
theorem geocode_failure_cached (w : World) (cache : Cache) (address : String)
    (hmiss : cache.find address = none) (hfail : providersFail w (pyStrip address)) :
    (geocode_address w cache address).1 = none ∧
    ((geocode_address w cache address).2.1).find (pyStrip address) = some none ∧
    (pyStrip address = address →
      (geocode_address w ((geocode_address w cache address).2.1) address).1 = none ∧
      (geocode_address w ((geocode_address w cache address).2.1) address).2.2 = []) := by
  have hres : (geocode_address w cache address).1 = none := by
    rcases hfail with h1 | ⟨h1, h2 | h2⟩
    · rw [geocode_eq_p1_err w cache address () hmiss h1]
    · rw [geocode_eq_p2_err w cache address () hmiss h1 h2]
    · rw [geocode_eq_p2_empty w cache address hmiss h1 h2]
  have hins := geocode_miss_insert w cache address hmiss
  have hfind : ((geocode_address w cache address).2.1).find (pyStrip address) =
      some none := by
    rw [hins, hres, Cache.find_insert_self]
  refine ⟨hres, hfind, ?_⟩
  intro heq
  rw [heq] at hfind
  simp [geocode_eq_hit w _ address none hfind]

/-- Witness for `geocode_failure_cached`: both providers error on `"b"`;
the first call returns `none` and caches the sentinel, the second call is a
cache hit with no provider traffic. -/
theorem geocode_failure_cached_witness :
    (geocode_address wErr [] "b").1 = none ∧
    (geocode_address wErr ((geocode_address wErr [] "b").2.1) "b").1 = none ∧
    (geocode_address wErr ((geocode_address wErr [] "b").2.1) "b").2.2 = [] := by
  have h := geocode_failure_cached wErr [] "b" rfl (Or.inl rfl)
  exact ⟨h.1, (h.2.2 rfl).1, (h.2.2 rfl).2⟩

/-- Claim C9, counterexample: In a world where provider 1 returns zero matches
and provider 2 matches, a cache-miss resolve performs a real provider-1
network call (`callP1` is in the trace) but no `time.sleep(1)` happens: the
delay is *not* enforced on every real provider-1 call, only on the
provider-1 success path. -/
theorem geocode_sleep_counterexample :
    (geocode_address wP1Empty [] "a").2.2 = [GeoEvent.callP1, GeoEvent.callP2] ∧
    GeoEvent.callP1 ∈ (geocode_address wP1Empty [] "a").2.2 ∧
    GeoEvent.sleep ∉ (geocode_address wP1Empty [] "a").2.2 := by
  refine ⟨rfl, ?_, ?_⟩ <;> decide

/-- Claim C9, amended: The 1-time-unit delay (`time.sleep(1)`) occurs exactly
on resolve calls where the cache misses and provider 1 returns a nonempty
match list (its success path); in particular no delay occurs on cache hits
(whose trace is empty) — and no delay occurs on the provider 2 fallback
path, transport errors included. -/
theorem geocode_sleep_iff (w : World) (cache : Cache) (address : String) :
    (GeoEvent.sleep ∈ (geocode_address w cache address).2.2 ↔
      cache.find address = none ∧
        ∃ c cs, w.p1 (pyStrip address) = .ok (c :: cs)) ∧
    (∀ r, cache.find address = some r →
      (geocode_address w cache address).2.2 = []) := by
  rcases hc : cache.find address with _ | r
  · constructor
    · rcases hp1 : w.p1 (pyStrip address) with u | (_ | ⟨c0, cs0⟩)
      · rw [geocode_eq_p1_err w cache address u hc hp1]
        simp [hp1]
      · rcases hp2 : w.p2 (pyStrip address) with u | (_ | ⟨m, ms⟩)
        · rw [geocode_eq_p2_err w cache address u hc hp1 hp2]
          simp [hp1]
        · rw [geocode_eq_p2_empty w cache address hc hp1 hp2]
          simp [hp1]
        · rw [geocode_eq_p2_ok w cache address m ms hc hp1 hp2]
          simp [hp1]
      · rw [geocode_eq_p1_ok w cache address c0 cs0 hc hp1]
        simp [hc, hp1]
    · intro r hr
      exact absurd hr (by simp)
  · constructor
    · rw [geocode_eq_hit w cache address r hc]
      simp [hc]
    · intro r' hr
      rw [geocode_eq_hit w cache address r hc]

/-- Witness for `geocode_sleep_iff`: a provider-1 success from an empty
cache does sleep; a cache hit has an empty trace. -/
theorem geocode_sleep_iff_witness :
    GeoEvent.sleep ∈ (geocode_address wP1Match [] "a").2.2 ∧
    (geocode_address wP1Match [("a", some (1, 2))] "a").2.2 = [] :=
  ⟨(geocode_sleep_iff wP1Match [] "a").1.mpr ⟨rfl, (1, 2), [], rfl⟩,
   (geocode_sleep_iff wP1Match [("a", some (1, 2))] "a").2 (some (1, 2)) rfl⟩

/-- Claim C10: On a cache miss, `geocode_address` terminates having stored
exactly one entry — the returned value — under the *trimmed* address key
(the new cache is the old cache plus that single insertion); the trimmed
form of the address therefore hits the cache afterwards, while an address
that differs from its trimmed form (surrounding whitespace) still misses
the cache after its own resolve, because the initial lookup uses the raw
untrimmed string. -/
theorem geocode_cache_key_is_trimmed (w : World) (cache : Cache) (address : String)
    (hmiss : cache.find address = none) :
    (geocode_address w cache address).2.1 =
      cache.insert (pyStrip address) ((geocode_address w cache address).1) ∧
    ((geocode_address w cache address).2.1).find (pyStrip address) =
      some ((geocode_address w cache address).1) ∧
    (pyStrip address ≠ address →
      ((geocode_address w cache address).2.1).find address = none) := by
  have hins := geocode_miss_insert w cache address hmiss
  refine ⟨hins, by rw [hins, Cache.find_insert_self], ?_⟩
  intro hne
  rw [hins, Cache.find_insert_ne _ _ _ _ (Ne.symm hne)]
  exact hmiss

/-- Witness for `geocode_cache_key_is_trimmed`: resolving `" c "` from an
empty cache stores the result under `"c"`; the raw key `" c "` still misses. -/
theorem geocode_cache_key_is_trimmed_witness :
    ((geocode_address wP1Match [] " c ").2.1).find (pyStrip " c ") =
      some ((geocode_address wP1Match [] " c ").1) ∧
    ((geocode_address wP1Match [] " c ").2.1).find " c " = none := by
  have h := geocode_cache_key_is_trimmed wP1Match [] " c " rfl
  exact ⟨h.2.1, h.2.2 (by decide)⟩

/-- Number of output rows carrying the classification label `l` (the
per-category counts of the final summary, lines 283-284 and 322-325). -/
def countLabel (outs : List RowOut) (l : String) : Nat :=
  (outs.filter fun o => o.on_tribal_land = some l).length

/-- The per-row invariant: the label is exactly one of the four strings;
`Yes`/`No` rows carry both coordinates; `Could Not Geocode`/`No Data` rows
carry none. -/
def RowOutOK (o : RowOut) : Prop :=
  (o.on_tribal_land = some "Yes" ∨ o.on_tribal_land = some "No" ∨
    o.on_tribal_land = some "Could Not Geocode" ∨ o.on_tribal_land = some "No Data") ∧
  ((o.on_tribal_land = some "Yes" ∨ o.on_tribal_land = some "No") →
    o.latitude.isSome ∧ o.longitude.isSome) ∧
  ((o.on_tribal_land = some "Could Not Geocode" ∨ o.on_tribal_land = some "No Data") →
    o.latitude = none ∧ o.longitude = none)

theorem process_row_ok (w : World) (boundaries : List Boundary) (cache : Cache)
    (cell : Option String) : RowOutOK (process_row w boundaries cache cell).1 := by
  rcases cell with _ | address
  · simp [process_row, RowOutOK]
  · simp only [process_row]
    rcases hg : (geocode_address w cache address).1 with _ | ⟨lat, lon⟩
    · simp [RowOutOK]
    · cases hb : check_tribal_land boundaries lat lon <;> simp [RowOutOK, hb]

theorem countLabel_cons (o : RowOut) (outs : List RowOut) (l : String) :
    countLabel (o :: outs) l =
      (if o.on_tribal_land = some l then 1 else 0) + countLabel outs l := by
  by_cases h : o.on_tribal_land = some l <;>
    simp [countLabel, List.filter_cons, h, Nat.add_comm]

theorem process_excel_cons (w : World) (boundaries : List Boundary)
    (cell : Option String) (rest : List (Option String)) (cache : Cache) :
    process_excel w boundaries (cell :: rest) cache =
      ((process_row w boundaries cache cell).1 ::
          (process_excel w boundaries rest
            (process_row w boundaries cache cell).2.1).1,
        (process_excel w boundaries rest
          (process_row w boundaries cache cell).2.1).2.1,
        (process_row w boundaries cache cell).2.2 +
          (process_excel w boundaries rest
            (process_row w boundaries cache cell).2.1).2.2) := by
  simp [process_excel]

/-- Claim C5: For every batch, `process_excel` emits one output row per input
row; every output row carries exactly one of the four labels `'Yes'`,
`'No'`, `'Could Not Geocode'`, `'No Data'`; the four per-category counts sum
to the batch size; every successfully geocoded row (`Yes`/`No`) carries a
non-null latitude/longitude pair; and rows with failed (`Could Not
Geocode`) or skipped (`No Data`) geocoding carry no coordinate. -/
theorem process_excel_classification (w : World) (boundaries : List Boundary)
    (cells : List (Option String)) (cache : Cache) :
    ((process_excel w boundaries cells cache).1).length = cells.length ∧
    (∀ o ∈ (process_excel w boundaries cells cache).1, RowOutOK o) ∧
    countLabel (process_excel w boundaries cells cache).1 "Yes" +
      countLabel (process_excel w boundaries cells cache).1 "No" +
      countLabel (process_excel w boundaries cells cache).1 "Could Not Geocode" +
      countLabel (process_excel w boundaries cells cache).1 "No Data" =
      cells.length := by
  induction cells generalizing cache with
  | nil => simp [process_excel, countLabel]
  | cons cell rest ih =>
    rw [process_excel_cons]
    obtain ⟨ihlen, ihok, ihcount⟩ := ih (process_row w boundaries cache cell).2.1
    have hok := process_row_ok w boundaries cache cell
    refine ⟨by simp [ihlen], ?_, ?_⟩
    · intro o ho
      rcases List.mem_cons.mp ho with h | h
      · rw [h]; exact hok
      · exact ihok o h
    · simp only [countLabel_cons]
      rcases hok.1 with h | h | h | h <;> rw [h] <;> simp <;> omega

/-- Witness for `process_excel_classification`: a two-row batch (one missing
cell, one failing address) has two output rows whose four label counts sum
to two. -/
theorem process_excel_classification_witness :
    ((process_excel wErr [] [none, some "a"] []).1).length = 2 ∧
    countLabel (process_excel wErr [] [none, some "a"] []).1 "Yes" +
      countLabel (process_excel wErr [] [none, some "a"] []).1 "No" +
      countLabel (process_excel wErr [] [none, some "a"] []).1 "Could Not Geocode" +
      countLabel (process_excel wErr [] [none, some "a"] []).1 "No Data" = 2 :=
  ⟨(process_excel_classification wErr [] [none, some "a"] []).1,
   (process_excel_classification wErr [] [none, some "a"] []).2.2⟩

/-- Claim C6, counterexample: An *empty-string* address cell is not `NaN`, so
`process_excel` does call the resolver on it: with both providers failing,
the batch `[some "", some " "]` (an empty and a whitespace-only cell) yields
`'Could Not Geocode'` for both rows — not `'No Data'` — and two resolver
invocations, refuting "empty or whitespace-only cells get `'No Data'` with
zero resolver invocations". -/
theorem empty_address_counterexample :
    (process_excel wErr [] [some "", some " "] []).1 =
      [{ latitude := none, longitude := none,
         on_tribal_land := some "Could Not Geocode" },
       { latitude := none, longitude := none,
         on_tribal_land := some "Could Not Geocode" }] ∧
    (process_excel wErr [] [some "", some " "] []).2.2 = 2 := by
  constructor <;> rfl

/-- Claim C6, amended: Only a *missing* address cell (pandas `NaN`/`None`, for
which `pd.isna` is true) is classified `'No Data'` with unset coordinates
and zero resolver invocations; every string-valued cell — including the
empty and whitespace-only strings — is passed to the resolver (exactly one
invocation for that row). -/
theorem no_data_only_missing (w : World) (boundaries : List Boundary) (cache : Cache) :
    process_row w boundaries cache none =
      ({ latitude := none, longitude := none, on_tribal_land := some "No Data" },
        cache, 0) ∧
    (∀ s, (process_row w boundaries cache (some s)).2.2 = 1) := by
  refine ⟨rfl, fun s => ?_⟩
  simp only [process_row]
  rcases hg : (geocode_address w cache s).1 with _ | ⟨lat, lon⟩ <;> simp [hg]

/-- A geospatial world whose datasets are all tagged with the NAD83
reference system `EPSG:4269` (the CRS of Census TIGER shapefiles). -/
def gw4269 : GeoWorld :=
  ⟨fun _ => ⟨"EPSG:4269", [⟨some "0001", "Test Area", sqPoly⟩]⟩, fun _ _ g => g⟩

/-- Claim C8, counterexample: The lazy-download path performs no CRS check or
reprojection: if the downloaded dataset is in `EPSG:4269`, the store ends up
holding geometries still tagged `EPSG:4269`, violating "every path leaves
the boundary geometries in EPSG:4326". -/
theorem crs_download_counterexample :
    (ensure_boundaries gw4269 none).crs = "EPSG:4269" ∧
    (ensure_boundaries gw4269 none).crs ≠ "EPSG:4326" := by
  constructor
  · rfl
  · decide

/-- Claim C8, amended: Only the explicit local-file load path
(`load_tribal_boundaries`) normalizes the CRS, reprojecting to `EPSG:4326`
whenever the source differs; the lazy-download path
(`download_tribal_boundaries`, reached from inside `check_tribal_land` when
no boundaries were loaded) applies no reprojection and keeps the source's
CRS, so the EPSG:4326 invariant holds there only if the downloaded dataset
already uses it. -/
theorem crs_normalized_on_load_only (gw : GeoWorld) (path : String) :
    (load_tribal_boundaries gw path).crs = "EPSG:4326" ∧
    (download_tribal_boundaries gw).crs = (gw.read_file tigerURL).crs ∧
    (∀ gdf, ensure_boundaries gw (some gdf) = gdf) ∧
    ensure_boundaries gw none = download_tribal_boundaries gw := by
  refine ⟨?_, rfl, fun gdf => rfl, rfl⟩
  by_cases h : (gw.read_file path).crs = "EPSG:4326" <;>
    simp [load_tribal_boundaries, GeoDataFrame.to_crs, h]

end TribalLandChecker
